/-
Verification of the pybo core: the restart-based maximizer
`solve_lbfgs` (pybo/bayesopt/solvers/lbfgs.py) and the meta-policy
`GPPolicy` (pybo/policies/gppolicy.py), shallowly embedded over exact
rationals.  External collaborators (numpy/scipy/pygp and the sampling
and acquisition modules) are modelled as oracle parameters; everything
that is code of the two source files is translated directly.
-/
import Mathlib

/-- A point of the search space: a numeric vector, one entry per dimension. -/
abbrev Point := List ℚ

/-- `ldsample.random(bounds, ninit, rng)` (pybo.utils, external to the two
source files): an oracle producing the random initial grid from the bounds,
the requested count and the rng state. -/
abbrev Sampler := List (ℚ × ℚ) → ℕ → ℕ → List Point

/-- `scipy.optimize.fmin_l_bfgs_b(objective, x0, bounds=bounds)[:2]` where
`objective` is the negation of `f` together with its gradient
(lbfgs.py lines 58-64).  scipy is external, so the whole local descent is an
oracle from the start point to the converged `(xmin, fmin)` pair; `fmin` is
the minimised value of the negated objective. -/
abbrev Lbfgsb := Point → Point × ℚ

/-- Python exceptions that the embedded code can raise. -/
inductive PyErr : Type
  | exception (msg : String)
  | keyError (key : String)
  | typeError (msg : String)
  | indexError
deriving DecidableEq

/-! ## solve_lbfgs (pybo/bayesopt/solvers/lbfgs.py) -/

/-- Lines 46-49: `xinit = ldsample.random(bounds, ninit, rng)` when no
initial test points were supplied, else the supplied points. -/
def candidateSet (xinit : Option (List Point)) (sampler : Sampler)
    (bounds : List (ℚ × ℚ)) (ninit : ℕ) (rng : ℕ) : List Point :=
  match xinit with
  | some given => given
  | none => sampler bounds ninit rng

/-- Line 53: `np.argsort(finit)[::-1]` — the candidate indices ordered by
descending objective value.  (numpy's default quicksort leaves the order of
equal values unspecified; no property proved here depends on tie order, so a
structurally recursive insertion sort stands in for it.) -/
def argsortDesc (v : List ℚ) : List ℕ :=
  List.insertionSort (fun i j => v.getD j 0 ≤ v.getD i 0) (List.range v.length)

/-- Lines 52-53 and the indexing `xinit[idx_sorted[:nbest]]` of line 64: the
top `nbest` candidates by initial objective value, in descending order. -/
def restartSeeds (f : List Point → List ℚ) (xs : List Point) (nbest : ℕ) :
    List Point :=
  ((argsortDesc (f xs)).take nbest).map (fun i => xs.getD i [])

/-- Lines 63-64: one bound-constrained local descent of the negated objective
from each selected seed; each entry is the `(xmin, fmin)` pair of one
restart. -/
def restartResults (f : List Point → List ℚ) (lbfgsb : Lbfgsb)
    (xs : List Point) (nbest : ℕ) : List (Point × ℚ) :=
  (restartSeeds f xs nbest).map lbfgsb

/-- Line 67 applies `np.argmin` to the generator `(_[1] for _ in result)`.
numpy wraps a generator in a 0-dimensional object array, and `argmin` of a
0-dimensional array is 0 — so the index is always 0, regardless of the
values (the comment above that line says "pick out the smallest", which is
not what the expression computes). -/
def npArgminGenerator : ℕ := 0

/-- Lines 66-70: `xmin, fmin = result[np.argmin(_[1] for _ in result)]`
followed by `return xmin, -fmin`.  Indexing an empty Python list raises
IndexError, modelled by `none`. -/
def pickResult (result : List (Point × ℚ)) : Option (Point × ℚ) :=
  match result.get? npArgminGenerator with
  | some (xmin, fmin) => some (xmin, -fmin)
  | none => none

/-- `solve_lbfgs(f, bounds, nbest=10, ninit=10000, xinit=None, rng=None)`,
lbfgs.py lines 21-70.  `f` evaluates the objective on a batch of points
(the single vectorised `f(xinit, grad=False)` call of line 52); `lbfgsb` is
the scipy local-descent oracle (see `Lbfgsb`). -/
def solve_lbfgs (f : List Point → List ℚ) (lbfgsb : Lbfgsb)
    (bounds : List (ℚ × ℚ)) (nbest : ℕ) (ninit : ℕ)
    (xinit : Option (List Point)) (sampler : Sampler) (rng : ℕ) :
    Option (Point × ℚ) :=
  pickResult (restartResults f lbfgsb
    (candidateSet xinit sampler bounds ninit rng) nbest)

/-- The named parameters of `solve_lbfgs` (its `def` line, lines 21-26). -/
def solve_lbfgs_params : List String :=
  ["f", "bounds", "nbest", "ninit", "xinit", "rng"]

/-- A Python call `solve_lbfgs(f, bounds, **kwargs)` with the given extra
keyword names: CPython raises `TypeError: ... got an unexpected keyword
argument '<name>'` at the first keyword that is not among the function's
parameters; otherwise the call proceeds with the bound arguments. -/
def callSolveLbfgs (kwargNames : List String) (f : List Point → List ℚ)
    (lbfgsb : Lbfgsb) (bounds : List (ℚ × ℚ)) (nbest : ℕ) (ninit : ℕ)
    (xinit : Option (List Point)) (sampler : Sampler) (rng : ℕ) :
    Except PyErr (Point × ℚ) :=
  match kwargNames.find? (fun k => !(solve_lbfgs_params.contains k)) with
  | some k =>
      Except.error (PyErr.typeError
        ("solve_lbfgs() got an unexpected keyword argument " ++ k))
  | none =>
      match solve_lbfgs f lbfgsb bounds nbest ninit xinit sampler rng with
      | some r => Except.ok r
      | none => Except.error PyErr.indexError

/-- Componentwise box membership: for every dimension `i`,
`lower_i ≤ x_i ≤ upper_i` (with the vector as long as the bounds). -/
def InBounds (bounds : List (ℚ × ℚ)) (x : Point) : Prop :=
  x.length = bounds.length ∧
    ∀ i, i < bounds.length →
      (bounds.getD i (0, 0)).1 ≤ x.getD i 0 ∧
        x.getD i 0 ≤ (bounds.getD i (0, 0)).2

instance (bounds : List (ℚ × ℚ)) (x : Point) : Decidable (InBounds bounds x) :=
  inferInstanceAs (Decidable (_ ∧ _))

/-! ## GPPolicy (pybo/policies/gppolicy.py) -/

/-- Python `s.startswith(t)` over the character sequences. -/
def pyStartsWith (s t : String) : Bool :=
  t.data.isPrefixOf s.data

/-- Python `s.endswith(t)` over the character sequences. -/
def pyEndsWith (s t : String) : Bool :=
  t.data.isSuffixOf s.data

/-- Python `s[n:]`: drop the first `n` characters. -/
def pyDropFront (s : String) (n : ℕ) : String :=
  String.mk (s.data.drop n)

/-- Python `s[::-1][n:][::-1]` (the reversal trick of line 41): drop the
last `n` characters. -/
def pyRevDropRev (s : String) (n : ℕ) : String :=
  String.mk ((s.data.reverse.drop n).reverse)

/-- Python `s.lower()` (the registry names are ASCII). -/
def pyLower (s : String) : String :=
  String.mk (s.data.map Char.toLower)

/-- Lines 36-42 of `_make_dict`: strip `lstrip` from the front of an export
name when it starts with it, strip `rstrip` from the back (python's
`fname[::-1][len(rstrip):][::-1]`) when it ends with it, and lower-case. -/
def stripModName (lstrip rstrip : String) (fname : String) : String :=
  let f1 := if pyStartsWith fname lstrip then pyDropFront fname lstrip.length
    else fname
  let f2 := if pyEndsWith f1 rstrip then pyRevDropRev f1 rstrip.length else f1
  pyLower f2

/-- `_make_dict(module, lstrip, rstrip)`, lines 29-44: the registry mapping
each normalized export name of the module to the export.  The exported
callables themselves live in external modules, so each is represented by its
original export name. -/
def _make_dict (exports : List String) (lstrip rstrip : String) :
    List (String × String) :=
  exports.map (fun fname => (stripModName lstrip rstrip fname, fname))

/-- Python `dict` lookup on an association list built left to right (a later
binding of the same key overwrites an earlier one); `none` is a KeyError. -/
def dictGet {α : Type} (d : List (String × α)) (k : String) : Option α :=
  d.foldl (fun acc kv => if kv.1 = k then some kv.2 else acc) none

/-- The `kernel` argument of `GPPolicy.__init__`: either a kernel name
(a string, the default being `'matern3'`) or an already-built kernel object
(external pygp value, represented by a tag). -/
inductive KernelArg : Type
  | name (s : String)
  | obj (tag : ℕ)
deriving DecidableEq

/-- A hyperparameter prior.  `defaultUniform ell` is the default
`dict(sn=Uniform(0.01, 1.0), sf=Uniform(0.01, 5.0),
ell=Uniform([0.01]*len(ell), 2*ell))` built on lines 77-80 (the pygp
Uniform objects are external; the dict is determined by `ell`);
`supplied` is a caller-provided prior. -/
inductive PriorVal : Type
  | defaultUniform (ell : List ℚ)
  | supplied (tag : ℕ)
deriving DecidableEq

/-- The model stored by the policy: `pygp.BasicGP(sn, sf, ell, kernel=...)`
(line 72), `pygp.inference.ExactGP(Gaussian(noise), kernel)` (lines 83-84),
or `MODELS[inference](gp, prior, n=10)` (line 98) — the pygp constructors
are external, so a model is represented by the constructor applied. -/
inductive Model : Type
  | basicGP (sn sf : ℚ) (ell : List ℚ) (kernel : String)
  | exactGP (noise : ℚ) (kernel : ℕ)
  | meta (inference : String) (base : Model) (prior : PriorVal) (n : ℕ)
deriving DecidableEq

/-- The state saved by a successful `GPPolicy.__init__` (lines 91-98): the
bounds, the resolved solver and acquisition callables (represented by their
export names) and the model. -/
structure GPPolicyState : Type where
  bounds : List (ℚ × ℚ)
  solverFn : String
  policyFn : String
  model : Model
deriving DecidableEq

/-- `GPPolicy.__init__(bounds, noise, kernel='matern3', solver='lbfgs',
policy='ei', inference='fixed', prior=None)`, gppolicy.py lines 57-98.
`SOLVERS`, `POLICIES` and `MODELS` are the registries of lines 46-48 (built
by `_make_dict` over external module export lists).  Notes kept from the
source: line 65 only coerces `bounds` to a 2-column float array and checks
nothing; lines 67-80 build a BasicGP from a string kernel and silently
substitute the default prior when `prior is None`; line 86 compares
`inference is not 'fixed'` — CPython string interning makes this equality
of the literals here; lines 92-93 and 98 index the registries with the raw
argument strings (KeyError when absent). -/
def GPPolicy.init (SOLVERS POLICIES MODELS : List (String × String))
    (bounds : List (ℚ × ℚ)) (noise : ℚ) (kernel : KernelArg)
    (solver policy inference : String) (prior : Option PriorVal) :
    Except PyErr GPPolicyState :=
  let gpAndPrior : Model × Option PriorVal :=
    match kernel with
    | KernelArg.name s =>
        let sn := noise
        let sf := (1 : ℚ)
        let ell := bounds.map (fun b => (b.2 - b.1) / 10)
        let priorEff := match prior with
          | none => some (PriorVal.defaultUniform ell)
          | some p => some p
        (Model.basicGP sn sf ell s, priorEff)
    | KernelArg.obj tag => (Model.exactGP noise tag, prior)
  let gp := gpAndPrior.1
  let priorEff := gpAndPrior.2
  if inference ≠ "fixed" ∧ priorEff = none then
    Except.error (PyErr.exception
      ("a prior must be specified for models with" ++
        "hyperparameter inference and non-default kernels"))
  else
    match dictGet SOLVERS solver with
    | none => Except.error (PyErr.keyError solver)
    | some sfn =>
        match dictGet POLICIES policy with
        | none => Except.error (PyErr.keyError policy)
        | some pfn =>
            if inference = "fixed" then
              Except.ok ⟨bounds, sfn, pfn, gp⟩
            else
              match dictGet MODELS inference with
              | none => Except.error (PyErr.keyError inference)
              | some _ =>
                  -- `MODELS[inference](gp, prior, n=10)`; the earlier check
                  -- guarantees `priorEff` is `some` here, so the `getD`
                  -- default is never used.
                  Except.ok ⟨bounds, sfn, pfn,
                    Model.meta inference gp
                      (priorEff.getD (PriorVal.supplied 0)) 10⟩

/-- `GPPolicy.get_init`, lines 109-116: `lo + 0.5 * (hi - lo)`, returned as
`init[None]` (a batch holding the single centre point). -/
def GPPolicy.get_init (bounds : List (ℚ × ℚ)) : List Point :=
  let lo := bounds.map (fun b => b.1)
  let wd := List.zipWith (fun hi l => hi - l) (bounds.map (fun b => b.2)) lo
  let init := List.zipWith (fun l w => l + (1 / 2) * w) lo wd
  [init]

/-- `GPPolicy.get_next`, lines 118-122: build the index
`self._policy(self._model)` (the acquisition functions live in the external
`acquisitions` module, so `acq` is an oracle from the resolved name and the
model to the index function) and call
`self._solver(index, self._bounds, maximize=True)` — a keyword call of
`solve_lbfgs` with the extra keyword `maximize`. -/
def GPPolicy.get_next (acq : String → Model → (List Point → List ℚ))
    (lbfgsb : Lbfgsb) (sampler : Sampler) (rng : ℕ) (st : GPPolicyState) :
    Except PyErr Point :=
  let index := acq st.policyFn st.model
  match callSolveLbfgs ["maximize"] index lbfgsb st.bounds 10 10000
      none sampler rng with
  | Except.ok r => Except.ok r.1
  | Except.error e => Except.error e

/-- `GPPolicy.get_best`, lines 124-134: the objective is the posterior mean
of the model (a pygp query, hence the oracle `posteriorMean`), `Xtest` is
the observed data `self._model.data` (also a pygp query, passed in), and the
call is `globalopt.solve_lbfgs(objective, self._bounds, xx=Xtest,
maximize=True)` — a keyword call of `solve_lbfgs` with the extra keywords
`xx` and `maximize`. -/
def GPPolicy.get_best (posteriorMean : Model → List Point → List ℚ)
    (lbfgsb : Lbfgsb) (sampler : Sampler) (rng : ℕ)
    (data : List Point × List ℚ) (st : GPPolicyState) : Except PyErr Point :=
  let objective := posteriorMean st.model
  let _Xtest := data.1
  match callSolveLbfgs ["xx", "maximize"] objective lbfgsb st.bounds 10 10000
      none sampler rng with
  | Except.ok r => Except.ok r.1
  | Except.error e => Except.error e

/-- Whether an `Except` computation finished without raising. -/
def exceptOk {ε α : Type} : Except ε α → Bool
  | Except.ok _ => true
  | Except.error _ => false

/-! ## Helper lemmas -/

/-- Indexing a list at every position of `range` recovers the list. -/
theorem map_getD_range {α : Type} (d : α) (xs : List α) :
    (List.range xs.length).map (fun i => xs.getD i d) = xs := by
  induction xs with
  | nil => rfl
  | cons a as ih =>
    rw [List.length_cons, List.range_succ_eq_map, List.map_cons, List.map_map]
    simp only [List.getD_cons_zero, Function.comp_def, List.getD_cons_succ]
    rw [ih]

/-- The elementwise centre computation of `get_init` in closed form. -/
theorem zipWith_center_eq (bs : List (ℚ × ℚ)) :
    List.zipWith (fun l w => l + (1 / 2 : ℚ) * w) (bs.map fun b => b.1)
      (List.zipWith (fun hi l => hi - l) (bs.map fun b => b.2)
        (bs.map fun b => b.1)) =
      bs.map (fun b => b.1 + (b.2 - b.1) / 2) := by
  induction bs with
  | nil => rfl
  | cons b bs ih =>
    simp only [List.map_cons, List.zipWith_cons_cons, ih, List.cons.injEq,
      and_true]
    ring

/-! ## Claims -/

/-- C8: for every successfully constructed policy, `get_init` returns the
centre of the domain box — the single point whose i-th coordinate is
`lower_i + (upper_i - lower_i) / 2` — as a pure, deterministic function of
the bounds alone, usable before any data exists. -/
theorem get_init_center (bounds : List (ℚ × ℚ)) :
    GPPolicy.get_init bounds =
      [bounds.map (fun b => b.1 + (b.2 - b.1) / 2)] := by
  unfold GPPolicy.get_init
  dsimp only
  rw [zipWith_center_eq]

/-- C9: when `xinit` is supplied, `solve_lbfgs` is independent of `ninit`,
of the sampler and of the rng state, and the candidate set is exactly the
supplied points (the sampler is never consulted). -/
theorem solve_lbfgs_xinit_shortcircuits :
    (∀ (f : List Point → List ℚ) (lbfgsb : Lbfgsb) (bounds : List (ℚ × ℚ))
        (nbest : ℕ) (xs : List Point) (ninit₁ ninit₂ : ℕ)
        (sampler₁ sampler₂ : Sampler) (rng₁ rng₂ : ℕ),
        solve_lbfgs f lbfgsb bounds nbest ninit₁ (some xs) sampler₁ rng₁ =
          solve_lbfgs f lbfgsb bounds nbest ninit₂ (some xs) sampler₂ rng₂) ∧
    (∀ (xs : List Point) (sampler : Sampler) (bounds : List (ℚ × ℚ))
        (ninit rng : ℕ),
        candidateSet (some xs) sampler bounds ninit rng = xs) :=
  ⟨fun _ _ _ _ _ _ _ _ _ _ _ => rfl, fun _ _ _ _ _ => rfl⟩

/-- C10: a non-empty supplied candidate set with no more points than
`nbest` does not raise: the top-`nbest` slice clamps to the available
candidates, one local restart is run from each candidate (the seeds are a
permutation of the candidates), and a `(point, value)` result is returned.
`hf` is the vectorisation contract: `f` returns one value per point. -/
theorem solve_lbfgs_clamps_nbest (f : List Point → List ℚ) (lbfgsb : Lbfgsb)
    (bounds : List (ℚ × ℚ)) (nbest ninit : ℕ) (xs : List Point)
    (sampler : Sampler) (rng : ℕ) (hne : xs ≠ [])
    (hlen : xs.length ≤ nbest) (hf : (f xs).length = xs.length) :
    (∃ x v, solve_lbfgs f lbfgsb bounds nbest ninit (some xs) sampler rng =
        some (x, v)) ∧
      (restartResults f lbfgsb xs nbest).length = xs.length ∧
      (restartSeeds f xs nbest).Perm xs := by
  have hperm : (argsortDesc (f xs)).Perm (List.range xs.length) := by
    unfold argsortDesc
    rw [hf]
    exact List.perm_insertionSort _ _
  have hlen2 : (argsortDesc (f xs)).length = xs.length := by
    rw [hperm.length_eq, List.length_range]
  have htake : (argsortDesc (f xs)).take nbest = argsortDesc (f xs) :=
    List.take_of_length_le (by rw [hlen2]; exact hlen)
  have hseeds : (restartSeeds f xs nbest).Perm xs := by
    unfold restartSeeds
    rw [htake]
    exact (hperm.map _).trans (by rw [map_getD_range])
  have hreslen : (restartResults f lbfgsb xs nbest).length = xs.length := by
    unfold restartResults
    rw [List.length_map, hseeds.length_eq]
  refine ⟨?_, hreslen, hseeds⟩
  have h0 : 0 < (restartResults f lbfgsb xs nbest).length := by
    rw [hreslen]
    exact List.length_pos.2 hne
  cases hres : (restartResults f lbfgsb xs nbest).get? 0 with
  | none => exact absurd (List.get?_eq_none.1 hres) (by omega)
  | some p =>
    obtain ⟨a, b⟩ := p
    refine ⟨a, -b, ?_⟩
    show pickResult (restartResults f lbfgsb xs nbest) = some (a, -b)
    unfold pickResult npArgminGenerator
    rw [hres]

/-- C10 witness: two candidates, `nbest = 3`. -/
theorem solve_lbfgs_clamps_nbest_witness :
    (∃ x v, solve_lbfgs (fun xs => xs.map (fun _ => (0 : ℚ)))
        (fun p => (p, 0)) [(0, 1)] 3 0 (some [[0], [1]])
        (fun _ _ _ => []) 0 = some (x, v)) ∧
      (restartResults (fun xs => xs.map (fun _ => (0 : ℚ)))
        (fun p => (p, 0)) [[0], [1]] 3).length = 2 ∧
      (restartSeeds (fun xs => xs.map (fun _ => (0 : ℚ)))
        [[0], [1]] 3).Perm [[0], [1]] := by
  have h := solve_lbfgs_clamps_nbest (fun xs => xs.map (fun _ => (0 : ℚ)))
    (fun p => (p, 0)) [(0, 1)] 3 0 [[0], [1]] (fun _ _ _ => []) 0
    (by decide) (by decide) (by decide)
  exact ⟨h.1, h.2.1, h.2.2⟩

/-- C4: whenever `solve_lbfgs` returns a point, that point lies within the
box bounds, provided the bound-constrained local descent (scipy's
`fmin_l_bfgs_b`, called with `bounds=bounds`) returns points within the
box — the returned point is always the output of one such descent. -/
theorem solve_lbfgs_in_bounds (f : List Point → List ℚ) (lbfgsb : Lbfgsb)
    (bounds : List (ℚ × ℚ)) (nbest ninit : ℕ) (xinit : Option (List Point))
    (sampler : Sampler) (rng : ℕ) (x : Point) (v : ℚ)
    (hb : ∀ x0, InBounds bounds (lbfgsb x0).1)
    (h : solve_lbfgs f lbfgsb bounds nbest ninit xinit sampler rng =
      some (x, v)) :
    InBounds bounds x := by
  unfold solve_lbfgs pickResult at h
  cases hg : (restartResults f lbfgsb
      (candidateSet xinit sampler bounds ninit rng) nbest).get?
      npArgminGenerator with
  | none => rw [hg] at h; exact absurd h (by simp)
  | some p =>
    obtain ⟨xm, fm⟩ := p
    rw [hg] at h
    simp only [Option.some.injEq, Prod.mk.injEq] at h
    obtain ⟨hx, -⟩ := h
    have hmem : (xm, fm) ∈ restartResults f lbfgsb
        (candidateSet xinit sampler bounds ninit rng) nbest :=
      List.get?_mem hg
    unfold restartResults at hmem
    obtain ⟨seed, -, hseed⟩ := List.mem_map.1 hmem
    have hbseed := hb seed
    rw [hseed] at hbseed
    rw [← hx]
    exact hbseed

/-- C4 witness: one dimension, descent oracle returning the boundary point
`0`. -/
theorem solve_lbfgs_in_bounds_witness : InBounds [(0, 1)] [0] := by
  refine solve_lbfgs_in_bounds (fun xs => xs.map (fun _ => (0 : ℚ)))
    (fun _ => ([0], -3)) [(0, 1)] 1 0 (some [[0]]) (fun _ _ _ => []) 0
    [0] 3 ?_ ?_
  · intro x0
    show InBounds [(0, 1)] [0]
    decide
  · decide

/-- Objective used for the C1 evaluation: value 2 everywhere except value 1
at the point `[1]` — so the candidate `[0]` ranks first on the initial
grid. -/
def exF : List Point → List ℚ :=
  fun xs => xs.map (fun p => if p = [1] then (1 : ℚ) else 2)

/-- Local-descent oracle for the C1 evaluation: the restart seeded at `[0]`
converges to achieved value 2, the restart seeded at `[1]` climbs to `[6]`
with achieved value 5 (the oracle returns values of the negated
objective). -/
def exLbfgsb : Lbfgsb :=
  fun p => if p = [1] then ([6], -5) else ([0], -2)

/-- A sampler that is never consulted in the C1 evaluation. -/
def exSampler : Sampler := fun _ _ _ => []

/-- C1: the claim says `solve_lbfgs` returns the restart with the highest
achieved value.  The code instead always returns the first restart:
`np.argmin` on line 67 is applied to a generator, which numpy wraps in a
0-dimensional object array whose argmin is 0.  Here the two restarts
achieve values 2 and 5, and the solver returns the value-2 restart —
contradicting the claim and the code's own comment ("pick out the
smallest"). -/
theorem solve_lbfgs_returns_first_restart_not_best :
    solve_lbfgs exF exLbfgsb [(0, 10)] 2 0 (some [[0], [1]]) exSampler 0 =
        some ([0], 2) ∧
      (restartResults exF exLbfgsb [[0], [1]] 2).map (fun r => -r.2) =
        [2, 5] ∧
      (2 : ℚ) < 5 := by decide

/-- C2: the claim says `get_next` returns the maximizer and does not raise.
In the code, `get_next` calls `self._solver(index, self._bounds,
maximize=True)` (gppolicy.py line 121), but `solve_lbfgs` has no `maximize`
parameter (lbfgs.py lines 21-26), so every call — for every policy state,
acquisition criterion and model, observed or empty — raises TypeError. -/
theorem get_next_always_raises_typeError
    (acq : String → Model → (List Point → List ℚ)) (lbfgsb : Lbfgsb)
    (sampler : Sampler) (rng : ℕ) (st : GPPolicyState) :
    GPPolicy.get_next acq lbfgsb sampler rng st =
      Except.error (PyErr.typeError
        "solve_lbfgs() got an unexpected keyword argument maximize") := rfl

/-- C3: the claim says `get_best` maximizes the posterior mean seeded with
the observed points and returns the maximizer.  In the code, `get_best`
calls `globalopt.solve_lbfgs(objective, self._bounds, xx=Xtest,
maximize=True)` (gppolicy.py lines 132-133), but `solve_lbfgs` accepts
neither `xx` (its seed parameter is named `xinit`) nor `maximize`, so every
call raises TypeError at the first unexpected keyword, `xx`. -/
theorem get_best_always_raises_typeError
    (posteriorMean : Model → List Point → List ℚ) (lbfgsb : Lbfgsb)
    (sampler : Sampler) (rng : ℕ) (data : List Point × List ℚ)
    (st : GPPolicyState) :
    GPPolicy.get_best posteriorMean lbfgsb sampler rng data st =
      Except.error (PyErr.typeError
        "solve_lbfgs() got an unexpected keyword argument xx") := rfl

/-- C5 counterexample: constructing with the default string kernel
`'matern3'`, `inference='mcmc'` and `prior=None` does NOT raise — lines
74-80 silently substitute the default prior before the line-86 check, and
construction succeeds with the defaulted prior stored in the model. -/
theorem gppolicy_mcmc_no_prior_constructs :
    GPPolicy.init (_make_dict ["solve_lbfgs"] "solve_" "")
        (_make_dict ["ei"] "" "") (_make_dict ["MCMC"] "" "")
        [(0, 1)] 2 (KernelArg.name "matern3") "lbfgs" "ei" "mcmc" none =
      Except.ok ⟨[(0, 1)], "solve_lbfgs", "ei",
        Model.meta "mcmc" (Model.basicGP 2 1 [(1 - 0) / 10] "matern3")
          (PriorVal.defaultUniform [(1 - 0) / 10]) 10⟩ := rfl

/-- C5 amended: only when the kernel is supplied as an object (non-string)
does constructing with a non-'fixed' inference mode and `prior=None` raise
the configuration error of lines 86-88; with a string kernel a default
prior is silently substituted and no error is raised. -/
theorem gppolicy_obj_kernel_prior_check
    (SOLVERS POLICIES MODELS : List (String × String))
    (bounds : List (ℚ × ℚ)) (noise : ℚ) (tag : ℕ)
    (solver policy inference : String) (hinf : inference ≠ "fixed") :
    GPPolicy.init SOLVERS POLICIES MODELS bounds noise (KernelArg.obj tag)
        solver policy inference none =
      Except.error (PyErr.exception
        ("a prior must be specified for models with" ++
          "hyperparameter inference and non-default kernels")) := by
  unfold GPPolicy.init
  simp [hinf]

/-- C5 amended witness: object kernel, `inference='mcmc'`, no prior. -/
theorem gppolicy_obj_kernel_prior_check_witness :
    GPPolicy.init [] [] [] [] 0 (KernelArg.obj 0) "lbfgs" "ei" "mcmc" none =
      Except.error (PyErr.exception
        ("a prior must be specified for models with" ++
          "hyperparameter inference and non-default kernels")) :=
  gppolicy_obj_kernel_prior_check [] [] [] [] 0 0 "lbfgs" "ei" "mcmc"
    (by decide)

/-- C6 counterexample: the registry built from export `solve_lbfgs` has the
normalized key `lbfgs`, yet constructing with `solver='LBFGS'` raises
KeyError — lookup on line 92 uses the supplied name verbatim, so resolution
is case-sensitive, not case-insensitive. -/
theorem gppolicy_solver_lookup_case_sensitive :
    dictGet (_make_dict ["solve_lbfgs"] "solve_" "") "lbfgs" =
        some "solve_lbfgs" ∧
      GPPolicy.init (_make_dict ["solve_lbfgs"] "solve_" "")
          (_make_dict ["ei"] "" "") [] [(0, 1)] 2 (KernelArg.name "matern3")
          "LBFGS" "ei" "fixed" none =
        Except.error (PyErr.keyError "LBFGS") := ⟨rfl, rfl⟩

/-- C6 amended: registry keys are normalized (known front piece stripped,
lower-cased) when the registries are built, but constructor lookup is by
the verbatim supplied name (case-sensitive); an unresolvable solver or
policy name still fails immediately at construction with a KeyError naming
the offending key, and an unresolvable inference name fails at construction
with a KeyError when the inference mode is not 'fixed' (the lookups happen
in the source order: solver on line 92, policy on line 93, inference on
line 98). -/
theorem gppolicy_registry_normalized_and_fail_fast :
    (∀ (exports : List String) (l r : String) (kv : String × String),
        kv ∈ _make_dict exports l r → kv.1 = stripModName l r kv.2) ∧
    (∀ (SOLVERS POLICIES MODELS : List (String × String))
        (bounds : List (ℚ × ℚ)) (noise : ℚ) (s solver policy : String)
        (inference : String) (prior : Option PriorVal),
        dictGet SOLVERS solver = none →
        GPPolicy.init SOLVERS POLICIES MODELS bounds noise (KernelArg.name s)
            solver policy inference prior =
          Except.error (PyErr.keyError solver)) ∧
    (∀ (SOLVERS POLICIES MODELS : List (String × String))
        (bounds : List (ℚ × ℚ)) (noise : ℚ) (s solver policy : String)
        (inference : String) (prior : Option PriorVal) (sfn : String),
        dictGet SOLVERS solver = some sfn →
        dictGet POLICIES policy = none →
        GPPolicy.init SOLVERS POLICIES MODELS bounds noise (KernelArg.name s)
            solver policy inference prior =
          Except.error (PyErr.keyError policy)) ∧
    (∀ (SOLVERS POLICIES MODELS : List (String × String))
        (bounds : List (ℚ × ℚ)) (noise : ℚ) (s solver policy : String)
        (inference : String) (prior : Option PriorVal) (sfn pfn : String),
        dictGet SOLVERS solver = some sfn →
        dictGet POLICIES policy = some pfn →
        inference ≠ "fixed" →
        dictGet MODELS inference = none →
        GPPolicy.init SOLVERS POLICIES MODELS bounds noise (KernelArg.name s)
            solver policy inference prior =
          Except.error (PyErr.keyError inference)) := by
  refine ⟨?_, ?_, ?_, ?_⟩
  · intro exports l r kv hkv
    unfold _make_dict at hkv
    obtain ⟨fname, -, h⟩ := List.mem_map.1 hkv
    cases h
    rfl
  · intro SOLVERS POLICIES MODELS bounds noise s solver policy inference
      prior hsol
    unfold GPPolicy.init
    cases prior <;> simp [hsol]
  · intro SOLVERS POLICIES MODELS bounds noise s solver policy inference
      prior sfn hsol hpol
    unfold GPPolicy.init
    cases prior <;> simp [hsol, hpol]
  · intro SOLVERS POLICIES MODELS bounds noise s solver policy inference
      prior sfn pfn hsol hpol hinf hmod
    unfold GPPolicy.init
    cases prior <;> simp [hsol, hpol, hinf, hmod]

/-- C6 amended witness: the key of export `solve_lbfgs` under
`lstrip='solve_'` is its normalized form; an empty solver registry raises
KeyError at construction; a resolvable solver with an unknown policy name
raises KeyError on the policy name; and resolvable solver and policy with
`inference='mcmc'` absent from the model registry raise KeyError on the
inference name. -/
theorem gppolicy_registry_normalized_and_fail_fast_witness :
    ("lbfgs", "solve_lbfgs").1 =
        stripModName "solve_" "" ("lbfgs", "solve_lbfgs").2 ∧
      GPPolicy.init [] [] [] [(0, 1)] 0 (KernelArg.name "matern3") "lbfgs"
          "ei" "fixed" none =
        Except.error (PyErr.keyError "lbfgs") ∧
      GPPolicy.init [("lbfgs", "solve_lbfgs")] [] [] [(0, 1)] 0
          (KernelArg.name "matern3") "lbfgs" "ei" "fixed" none =
        Except.error (PyErr.keyError "ei") ∧
      GPPolicy.init [("lbfgs", "solve_lbfgs")] [("ei", "ei")] [] [(0, 1)] 0
          (KernelArg.name "matern3") "lbfgs" "ei" "mcmc" none =
        Except.error (PyErr.keyError "mcmc") :=
  ⟨gppolicy_registry_normalized_and_fail_fast.1 ["solve_lbfgs"] "solve_" ""
      ("lbfgs", "solve_lbfgs") (by decide),
    gppolicy_registry_normalized_and_fail_fast.2.1 [] [] [] [(0, 1)] 0
      "matern3" "lbfgs" "ei" "fixed" none (by decide),
    gppolicy_registry_normalized_and_fail_fast.2.2.1
      [("lbfgs", "solve_lbfgs")] [] [] [(0, 1)] 0 "matern3" "lbfgs" "ei"
      "fixed" none "solve_lbfgs" (by decide) (by decide),
    gppolicy_registry_normalized_and_fail_fast.2.2.2
      [("lbfgs", "solve_lbfgs")] [("ei", "ei")] [] [(0, 1)] 0 "matern3"
      "lbfgs" "ei" "mcmc" none "solve_lbfgs" "ei" (by decide) (by decide)
      (by decide) (by decide)⟩

/-- C7 counterexample: bounds `[(1, 0)]` with lower > upper are accepted —
construction succeeds (line 65 only coerces the bounds to a float array and
validates nothing), so no configuration error is raised at construction. -/
theorem gppolicy_inverted_bounds_accepted :
    GPPolicy.init (_make_dict ["solve_lbfgs"] "solve_" "")
        (_make_dict ["ei"] "" "") [] [(1, 0)] 2 (KernelArg.name "matern3")
        "lbfgs" "ei" "fixed" none =
      Except.ok ⟨[(1, 0)], "solve_lbfgs", "ei",
        Model.basicGP 2 1 [(0 - 1) / 10] "matern3"⟩ := rfl

/-- C7 amended: construction performs no validation of the domain bounds
whatsoever — whether `__init__` raises is independent of the bound values,
so malformed bounds (lower ≥ upper on any dimension) are accepted at
construction and any failure is deferred to later operations. -/
theorem gppolicy_init_ignores_bounds_values
    (SOLVERS POLICIES MODELS : List (String × String))
    (bounds₁ bounds₂ : List (ℚ × ℚ)) (noise : ℚ) (kernel : KernelArg)
    (solver policy inference : String) (prior : Option PriorVal) :
    exceptOk (GPPolicy.init SOLVERS POLICIES MODELS bounds₁ noise kernel
        solver policy inference prior) =
      exceptOk (GPPolicy.init SOLVERS POLICIES MODELS bounds₂ noise kernel
        solver policy inference prior) := by
  unfold GPPolicy.init
  cases kernel <;> cases prior <;> dsimp only <;>
    simp only [Option.some_ne_none, and_false, if_false, ite_false, ne_eq,
      not_false_iff, and_true] <;>
    (repeat' split) <;> rfl
